import Mathlib

/-!
Shallow embedding of `src/dashboard.py` (a Streamlit dashboard that renders a
pre-computed document-analysis report), together with theorems settling the
frozen claims about it.

Modelling conventions:
* JSON objects become Lean structures whose fields are `Option`-typed when the
  Python code accesses them through `dict.get(key, default)`; `none` models an
  absent key and `Option.getD` models the `.get` default.
* JSON mappings preserved in insertion order become association lists
  `List (String × _)` (Python dicts preserve insertion order).
* Python exceptions that abort a computation become `Option`/sum results.
* Machine-level concerns (floats in display formatting) are modelled with `Rat`
  where the exact quotient matters.
-/

namespace Dashboard

/-- One entry of a practice's `non_compliant` list (dashboard.py lines 101-105,
193-199): usually a mapping with optional `file` and `reason` keys, but the
code also tolerates a bare string document name. -/
inductive NCItem where
  | dict (file : Option String) (reason : Option String)
  | bare (name : String)
deriving DecidableEq

/-- Per-practice record of `best_practices_compliance` (dashboard.py lines
94-108, 177-204): `compliant` is a list of document names and `non_compliant`
a list of `NCItem`; both accessed via `.get` with `[]` default. -/
structure PracticeDetails where
  compliant : Option (List String) := none
  non_compliant : Option (List NCItem) := none
deriving DecidableEq

/-- Per-term record of `terminology_analysis['terms']` (dashboard.py lines
120-122, 153): optional `frequency` (default 0) and optional `documents`
(default `[]`). -/
structure TermDetails where
  frequency : Option Nat := none
  documents : Option (List String) := none
deriving DecidableEq

/-- The `terminology_analysis` object (dashboard.py lines 52-53, 120, 133,
141, 151, 162): four optional sub-collections, each read with `.get` and an
empty default. Inconsistencies are free-form records (string-to-string
mappings). -/
structure TermAnalysis where
  terms : Option (List (String × TermDetails)) := none
  glossary : Option (List (String × String)) := none
  synonym_map : Option (List (String × List String)) := none
  inconsistencies : Option (List (List (String × String))) := none
deriving DecidableEq

/-- Per-document record of `document_structure` (dashboard.py lines 70-88):
optional headings mapping (level name to count), optional ordered section
token lengths, and four optional boolean feature flags. -/
structure DocRecord where
  headings : Option (List (String × Nat)) := none
  section_lengths : Option (List Nat) := none
  lists : Option Bool := none
  tables : Option Bool := none
  faqs : Option Bool := none
  metadata : Option Bool := none
deriving DecidableEq

/-- One entry of `redundancy_and_gaps['overlaps']` (dashboard.py lines
211-215): a topic with the documents sharing it. -/
structure OverlapEntry where
  topic : String
  documents : List String
deriving DecidableEq

/-- The `redundancy_and_gaps` object (dashboard.py lines 211, 220, 229):
three optional sub-collections read with `.get` and `[]` default. -/
structure Redundancy where
  overlaps : Option (List OverlapEntry) := none
  redundant_content : Option (List String) := none
  missing_information : Option (List String) := none
deriving DecidableEq

/-- A successfully parsed JSON document: the six optional top-level keys of
the input file (dashboard.py lines 19-24); `none` models an absent key. -/
structure RawReport where
  document_structure : Option (List (String × DocRecord)) := none
  terminology_analysis : Option TermAnalysis := none
  best_practices_compliance : Option (List (String × PracticeDetails)) := none
  redundancy_and_gaps : Option Redundancy := none
  recommendations : Option (List String) := none
  summary : Option String := none
deriving DecidableEq

/-- The in-memory state after the `data.get(...)` extraction block
(dashboard.py lines 19-24): every absent top-level key replaced by its
default. -/
structure Report where
  doc_structure : List (String × DocRecord)
  term_analysis : TermAnalysis
  compliance : List (String × PracticeDetails)
  redundancy : Redundancy
  recommendations : List String
  summary : String
deriving DecidableEq

/-- dashboard.py lines 19-24: `data.get('document_structure', {})` and the
five sibling lines; the summary default is the literal string used on line
24. -/
def extractReport (d : RawReport) : Report where
  doc_structure := d.document_structure.getD []
  term_analysis := d.terminology_analysis.getD {}
  compliance := d.best_practices_compliance.getD []
  redundancy := d.redundancy_and_gaps.getD {}
  recommendations := d.recommendations.getD []
  summary := d.summary.getD "No summary provided."

/-- dashboard.py line 27: `doc_names = list(doc_structure.keys())`. -/
def doc_names (r : Report) : List String := r.doc_structure.map Prod.fst

/-- The minimal well-formed input: a JSON object with every optional
top-level key omitted. -/
def minimalRaw : RawReport := {}

/-! ## String helpers used by the views -/

/-- Character-level body of `pyTitle`: the boolean argument records whether
the previous character was alphabetic (Python: cased), mirroring CPython's
`str.title` word-boundary rule for the ASCII inputs this report uses. -/
def pyTitleGo : Bool → List Char → List Char
  | _, [] => []
  | prevAlpha, c :: cs =>
    if c.isAlpha then
      (if prevAlpha then c.toLower else c.toUpper) :: pyTitleGo true cs
    else
      c :: pyTitleGo false cs

/-- Python `str.title()` restricted to ASCII: uppercase each letter that
starts a maximal letter run, lowercase the rest, leave other characters
unchanged. -/
def pyTitle (s : String) : String := String.mk (pyTitleGo false s.data)

/-- Python `s.replace('_', ' ')` for the single-character pattern used in
dashboard.py lines 108 and 178. -/
def replaceUnderscore (s : String) : String :=
  String.mk (s.data.map fun c => if c = '_' then ' ' else c)

/-- dashboard.py lines 108 / 178: `practice.replace('_', ' ').title()`. -/
def displayPractice (p : String) : String := pyTitle (replaceUnderscore p)

/-- Python `', '.join(...)` (dashboard.py lines 124, 144, 214). -/
def joinComma (l : List String) : String := String.intercalate ", " l

/-! ## Overview page (dashboard.py lines 45-62) -/

/-- The five metric tiles of the Overview page. -/
structure OverviewStats where
  num_docs : Nat
  num_terms : Nat
  num_inconsistencies : Nat
  num_recommendations : Nat
  num_compliance_areas : Nat
deriving DecidableEq

/-- dashboard.py lines 51-55: the Overview key statistics. -/
def overviewStats (r : Report) : OverviewStats where
  num_docs := (doc_names r).length
  num_terms := (r.term_analysis.terms.getD []).length
  num_inconsistencies := (r.term_analysis.inconsistencies.getD []).length
  num_recommendations := r.recommendations.length
  num_compliance_areas := r.compliance.length

/-! ## Document Explorer page (dashboard.py lines 64-126) -/

/-- dashboard.py line 78:
`sum(doc_data.get('section_lengths', [0])) / len(doc_data.get('section_lengths', [1]))`.
The two `.get` defaults apply only when the `section_lengths` KEY is absent;
a present-but-empty list reaches the division with numerator `sum([]) = 0`
and denominator `len([]) = 0`, which in Python raises `ZeroDivisionError` —
modelled as `none`. -/
def avg_len (doc : DocRecord) : Option Rat :=
  let s : Nat := (doc.section_lengths.getD [0]).sum
  let n : Nat := (doc.section_lengths.getD [1]).length
  if n = 0 then none else some ((s : Rat) / (n : Rat))

/-- dashboard.py lines 101-105: the inner loop over
`details.get('non_compliant', [])` — the first mapping entry whose `file`
equals the selected document supplies the reason
(`item.get('reason', 'No specific reason provided.')`) and breaks; bare
(non-dict) entries are skipped by the `isinstance` check. Returns `none`
when no mapping entry matches. -/
def firstMatchReason (selected : String) : List NCItem → Option String
  | [] => none
  | NCItem.dict f r :: rest =>
    if f = some selected then some (r.getD "No specific reason provided.")
    else firstMatchReason selected rest
  | NCItem.bare _ :: rest => firstMatchReason selected rest

/-- Boolean form of "this `non_compliant` entry is a mapping whose `file`
is the selected document" (the condition of dashboard.py line 102). -/
def ncFileMatches (selected : String) : NCItem → Bool
  | NCItem.dict f _ => f == some selected
  | NCItem.bare _ => false

/-- The default reason initialised on dashboard.py line 96. -/
def defaultReason : String := "Not explicitly listed as non-compliant"

/-- dashboard.py lines 93-108: the Document Explorer compliance loop. For
each practice: `is_compliant` starts `False`, membership in `compliant`
sets it `True`, a matching mapping entry in `non_compliant` forces it
`False` with that entry's reason, and every practice left non-compliant is
appended as a `(title-cased practice, reason)` row. -/
def compliance_issues (selected : String) : List (String × PracticeDetails) → List (String × String)
  | [] => []
  | (practice, details) :: rest =>
    match firstMatchReason selected (details.non_compliant.getD []) with
    | some reason => (displayPractice practice, reason) :: compliance_issues selected rest
    | none =>
      if selected ∈ details.compliant.getD [] then compliance_issues selected rest
      else (displayPractice practice, defaultReason) :: compliance_issues selected rest

/-- dashboard.py lines 119-122: terms whose `documents` list contains the
selected document, in key order. -/
def found_terms (selected : String) (terms : List (String × TermDetails)) : List String :=
  (terms.filter fun td => (td.2.documents.getD []).contains selected).map Prod.fst

/-- Everything the Document Explorer renders for one selected document
(dashboard.py lines 69-126). -/
structure DocDetails where
  h1 : Nat
  h2 : Nat
  numSections : Nat
  avg_section_len : Option Rat
  lists_present : Bool
  tables_present : Bool
  faqs_present : Bool
  metadata_present : Bool
  complianceIssues : List (String × String)
  foundTerms : List String
deriving DecidableEq

/-- dashboard.py lines 75-88 and 93-126: the details block for a selected
document. Heading counts use `doc_data.get('headings', {}).get('H1', 0)`
(resp. `'H2'`); the four feature flags use `doc_data.get(flag, False)`. -/
def renderDocDetails (r : Report) (selected : String) (doc : DocRecord) : DocDetails where
  h1 := ((doc.headings.getD []).lookup "H1").getD 0
  h2 := ((doc.headings.getD []).lookup "H2").getD 0
  numSections := (doc.section_lengths.getD []).length
  avg_section_len := avg_len doc
  lists_present := doc.lists.getD false
  tables_present := doc.tables.getD false
  faqs_present := doc.faqs.getD false
  metadata_present := doc.metadata.getD false
  complianceIssues := compliance_issues selected r.compliance
  foundTerms := found_terms selected (r.term_analysis.terms.getD [])

/-- Model of `st.selectbox(label, options)` (dashboard.py line 66):
Streamlit returns the option at the chosen index, index 0 by default, and
`None` exactly when `options` is empty. An out-of-range index cannot occur
in the UI and is modelled as the default index 0. -/
def selectbox (options : List String) (choice : Nat) : Option String :=
  match options.get? choice with
  | some v => some v
  | none => options.get? 0

/-- dashboard.py lines 64-126: the Document Explorer page. Returns `none`
when no details block is rendered, i.e. when the guard
`if selected_doc and selected_doc in doc_structure:` (line 68) fails —
either no document was selectable or the selected name is falsy/unknown. -/
def documentExplorer (r : Report) (choice : Nat) : Option DocDetails :=
  match selectbox (doc_names r) choice with
  | none => none
  | some d =>
    if d ≠ "" then
      match r.doc_structure.lookup d with
      | some doc => some (renderDocDetails r d doc)
      | none => none
    else none

/-! ## Terminology Hub page (dashboard.py lines 129-168) -/

/-- dashboard.py line 153: the rows
`{'Term': term, 'Frequency': details.get('frequency', 0)}` built from the
`terms` mapping in key order, before sorting. -/
def freq_data (terms : List (String × TermDetails)) : List (String × Nat) :=
  terms.map fun td => (td.1, td.2.frequency.getD 0)

/-- One step of a stable ascending insertion sort by frequency: insert `a`
immediately before the first element whose frequency is ≥ `a`'s. -/
def orderedInsertFreq (a : String × Nat) : List (String × Nat) → List (String × Nat)
  | [] => [a]
  | b :: l => if a.2 ≤ b.2 then a :: b :: l else b :: orderedInsertFreq a l

/-- Stable ascending insertion sort of frequency rows. -/
def insertionSortFreq : List (String × Nat) → List (String × Nat)
  | [] => []
  | a :: l => orderedInsertFreq a (insertionSortFreq l)

/-- dashboard.py line 154:
`pd.DataFrame(freq_data).sort_values(by='Frequency', ascending=False)`.
pandas implements a descending single-column sort (`nargsort`) by computing
an ASCENDING argsort with the default `kind='quicksort'` kernel and then
reversing the whole index order (`indexer = indexer[::-1]`); numpy's
quicksort kernel falls back to a stable insertion sort on short runs, so on
small inputs the net effect is exactly the reverse of a stable ascending
sort — which is what this models. Note the consequence: rows with EQUAL
frequency come out in reverse of their original key order. -/
def sort_values_desc (l : List (String × Nat)) : List (String × Nat) :=
  (insertionSortFreq l).reverse

/-- The term-frequency table as rendered (dashboard.py lines 150-155). -/
def df_freq (terms : List (String × TermDetails)) : List (String × Nat) :=
  sort_values_desc (freq_data terms)

/-- The four sections of the Terminology Hub; `none` models the section's
empty-state message (`st.write(...)`/`st.success(...)` branch). -/
structure TermHubView where
  glossary : Option (List (String × String))
  synonyms : Option (List (String × String))
  freq : Option (List (String × Nat))
  inconsistencies : Option (List (List (String × String)))
deriving DecidableEq

/-- dashboard.py lines 129-168: the Terminology Hub page. Each section
renders its table iff its source collection is non-empty (Python dict/list
truthiness), else its empty-state message. -/
def terminologyHub (r : Report) : TermHubView where
  glossary :=
    let g := r.term_analysis.glossary.getD []
    if g = [] then none else some g
  synonyms :=
    let s := r.term_analysis.synonym_map.getD []
    if s = [] then none else some (s.map fun kv => (kv.1, joinComma kv.2))
  freq :=
    let t := r.term_analysis.terms.getD []
    if t = [] then none else some (df_freq t)
  inconsistencies :=
    let i := r.term_analysis.inconsistencies.getD []
    if i = [] then none else some i

/-! ## Compliance Dashboard page (dashboard.py lines 171-204) -/

/-- dashboard.py lines 195-199: one row of the non-compliant table. A
mapping entry contributes `(item.get('file'), item.get('reason'))` (no
defaults — absent keys yield `None`); any other shape is coerced to
`(item, 'N/A')`. -/
def non_compliant_row : NCItem → Option String × Option String
  | NCItem.dict f r => (f, r)
  | NCItem.bare s => (some s, some "N/A")

/-- One expander of the Compliance Dashboard: title-cased practice name,
compliant list with its count, and the non-compliant rows with their count;
`none` models the section's `st.info` empty-state message. -/
structure PracticeSection where
  title : String
  compliant_docs : Option (Nat × List String)
  non_compliant_rows : Option (Nat × List (Option String × Option String))
deriving DecidableEq

/-- dashboard.py lines 177-204: the per-practice expander body. -/
def practiceSection (p : String) (details : PracticeDetails) : PracticeSection where
  title := displayPractice p
  compliant_docs :=
    let c := details.compliant.getD []
    if c = [] then none else some (c.length, c)
  non_compliant_rows :=
    let nc := details.non_compliant.getD []
    if nc = [] then none else some (nc.length, nc.map non_compliant_row)

/-- dashboard.py lines 171-204: the Compliance Dashboard page; `none`
models the `st.warning("No compliance data available.")` branch. -/
def complianceDashboard (r : Report) : Option (List PracticeSection) :=
  if r.compliance = [] then none
  else some (r.compliance.map fun q => practiceSection q.1 q.2)

/-! ## Redundancy & Gaps page (dashboard.py lines 207-235) -/

/-- The three sections of the Redundancy & Gaps page; `none` models each
section's `st.info` empty-state message. -/
structure RedundancyView where
  overlaps : Option (List (String × String))
  redundant_content : Option (List String)
  missing_information : Option (List String)
deriving DecidableEq

/-- dashboard.py lines 207-235: overlaps with their documents comma-joined,
and the two bulleted lists (`st.markdown(f"- {item}")`). -/
def redundancyView (r : Report) : RedundancyView where
  overlaps :=
    let o := r.redundancy.overlaps.getD []
    if o = [] then none else some (o.map fun e => (e.topic, joinComma e.documents))
  redundant_content :=
    let rc := r.redundancy.redundant_content.getD []
    if rc = [] then none else some (rc.map fun item => "- " ++ item)
  missing_information :=
    let mi := r.redundancy.missing_information.getD []
    if mi = [] then none else some (mi.map fun item => "- " ++ item)

/-! ## Recommendations page (dashboard.py lines 238-246) -/

/-- dashboard.py lines 241-246: the 1-based numbered lines
`st.markdown(f"{i+1}. {rec}")` in source order; `none` models the
`st.info` empty-state message. -/
def recommendationsPage (recs : List String) : Option (List String) :=
  if recs = [] then none
  else some (recs.enum.map fun p => toString (p.1 + 1) ++ ". " ++ p.2)

/-! ## Top level: load, navigate, render (dashboard.py lines 8-43) -/

/-- The six sidebar pages (dashboard.py lines 31-38). -/
inductive Page where
  | overview
  | docExplorer
  | termHub
  | complianceDash
  | redundancyGaps
  | recsPage
deriving DecidableEq

/-- What one render of the active page produces. -/
inductive ViewModel where
  | overviewV (summary : String) (stats : OverviewStats)
  | docExplorerV (details : Option DocDetails)
  | termHubV (v : TermHubView)
  | complianceV (v : Option (List PracticeSection))
  | redundancyV (v : RedundancyView)
  | recsV (lines : Option (List String))
deriving DecidableEq

/-- dashboard.py lines 45-246: dispatch on the sidebar selection; the
`choice` index is the Document Explorer's selectbox state. -/
def renderPage (r : Report) : Page → Nat → ViewModel
  | Page.overview, _ => ViewModel.overviewV r.summary (overviewStats r)
  | Page.docExplorer, choice => ViewModel.docExplorerV (documentExplorer r choice)
  | Page.termHub, _ => ViewModel.termHubV (terminologyHub r)
  | Page.complianceDash, _ => ViewModel.complianceV (complianceDashboard r)
  | Page.redundancyGaps, _ => ViewModel.redundancyV (redundancyView r)
  | Page.recsPage, _ => ViewModel.recsV (recommendationsPage r.recommendations)

/-- Outcome of reading and parsing the input file (dashboard.py lines 8-16):
the file may be absent (`FileNotFoundError`), present but not valid JSON
(`json.JSONDecodeError`), or parsed into a `RawReport`. -/
inductive FileRead where
  | missing
  | invalid
  | parsed (raw : RawReport)

/-- Result of one run of the script: either halted at load time with the
`st.error` message (followed by `st.stop()`), or a rendered page. -/
inductive AppOutcome where
  | halted (msg : String)
  | rendered (v : ViewModel)

/-- dashboard.py lines 8-246: the whole script for one page render. The
two `except` branches show their `st.error` message and `st.stop()`, so no
page content is produced; otherwise the extracted report is rendered. -/
def runApp (f : FileRead) (p : Page) (choice : Nat) : AppOutcome :=
  match f with
  | FileRead.missing =>
    AppOutcome.halted "Error: cross_document_analysis_data.json.json not found. Please ensure the JSON data is saved in this file."
  | FileRead.invalid =>
    AppOutcome.halted "Error: Could not decode cross_document_analysis_data.json.json. Please ensure it's valid JSON."
  | FileRead.parsed raw => AppOutcome.rendered (renderPage (extractReport raw) p choice)

/-- Whether any dashboard view was produced. -/
def isRendered : AppOutcome → Bool
  | AppOutcome.halted _ => false
  | AppOutcome.rendered _ => true

/-! ## Theorems -/

/-- C1: the claim says the average-section-length computation returns 0 for an
empty `section_lengths` and never divides by zero. The code divides by zero
there: the `.get` defaults `[0]`/`[1]` of dashboard.py line 78 only apply when
the `section_lengths` key is ABSENT, so a record carrying `section_lengths: []`
evaluates `sum([]) / len([])` and raises `ZeroDivisionError` (modelled as
`none`). The intended guard works only for an absent key (average 0), and the
non-empty case does return sum/count (e.g. `[4, 6] ↦ 5`). -/
theorem avg_len_divzero_on_empty_sections :
    avg_len { section_lengths := some [] } = none ∧
    avg_len ({} : DocRecord) = some 0 ∧
    avg_len { section_lengths := some [4, 6] } = some 5 := by
  refine ⟨rfl, ?_, ?_⟩ <;> norm_num [avg_len]

/-- C4: a missing input file halts the run with the "not found" error message
and an unparseable file halts with the "could not decode" message; in both
cases no page is rendered, whatever page or selection was active. -/
theorem load_failure_halts (p : Page) (c : Nat) :
    runApp FileRead.missing p c =
      AppOutcome.halted "Error: cross_document_analysis_data.json.json not found. Please ensure the JSON data is saved in this file." ∧
    runApp FileRead.invalid p c =
      AppOutcome.halted "Error: Could not decode cross_document_analysis_data.json.json. Please ensure it's valid JSON." ∧
    isRendered (runApp FileRead.missing p c) = false ∧
    isRendered (runApp FileRead.invalid p c) = false :=
  ⟨rfl, rfl, rfl, rfl⟩

/-- C5: each absent optional top-level key defaults to its empty value at
extraction time (for any values of the other keys), and the minimal report
with every optional key omitted yields empty collections and only empty-state
renders on every page (the Overview shows the default summary and all-zero
metrics). -/
theorem absent_keys_default_empty (raw : RawReport) (c : Nat) :
    (extractReport { raw with document_structure := none }).doc_structure = [] ∧
    (extractReport { raw with terminology_analysis := none }).term_analysis = {} ∧
    (extractReport { raw with best_practices_compliance := none }).compliance = [] ∧
    (extractReport { raw with redundancy_and_gaps := none }).redundancy = {} ∧
    (extractReport { raw with recommendations := none }).recommendations = [] ∧
    (extractReport { raw with summary := none }).summary = "No summary provided." ∧
    extractReport minimalRaw =
      { doc_structure := [], term_analysis := {}, compliance := [], redundancy := {},
        recommendations := [], summary := "No summary provided." } ∧
    renderPage (extractReport minimalRaw) Page.overview c =
      ViewModel.overviewV "No summary provided." ⟨0, 0, 0, 0, 0⟩ ∧
    documentExplorer (extractReport minimalRaw) c = none ∧
    terminologyHub (extractReport minimalRaw) = ⟨none, none, none, none⟩ ∧
    complianceDashboard (extractReport minimalRaw) = none ∧
    redundancyView (extractReport minimalRaw) = ⟨none, none, none⟩ ∧
    recommendationsPage (extractReport minimalRaw).recommendations = none := by
  refine ⟨rfl, rfl, rfl, rfl, rfl, rfl, rfl, rfl, ?_, rfl, rfl, rfl, rfl⟩
  simp [documentExplorer, doc_names, extractReport, minimalRaw, selectbox]

/-- C6: the five Overview metrics are exactly the cardinalities of their
collections — document keys, terms, inconsistency entries, recommendations,
compliance-practice keys — and each is zero exactly when its collection is
empty. -/
theorem overview_counts (r : Report) :
    (overviewStats r).num_docs = r.doc_structure.length ∧
    (overviewStats r).num_terms = (r.term_analysis.terms.getD []).length ∧
    (overviewStats r).num_inconsistencies = (r.term_analysis.inconsistencies.getD []).length ∧
    (overviewStats r).num_recommendations = r.recommendations.length ∧
    (overviewStats r).num_compliance_areas = r.compliance.length ∧
    ((overviewStats r).num_docs = 0 ↔ r.doc_structure = []) ∧
    ((overviewStats r).num_terms = 0 ↔ r.term_analysis.terms.getD [] = []) ∧
    ((overviewStats r).num_inconsistencies = 0 ↔ r.term_analysis.inconsistencies.getD [] = []) ∧
    ((overviewStats r).num_recommendations = 0 ↔ r.recommendations = []) ∧
    ((overviewStats r).num_compliance_areas = 0 ↔ r.compliance = []) := by
  simp [overviewStats, doc_names, List.length_eq_zero]

/-- C7: a non-empty recommendations list renders one line per entry, the i-th
(0-based) entry as "(i+1). text" in source order; the empty list renders the
empty-state message instead. -/
theorem recommendations_numbered (recs : List String) (i : Nat) (t : String) :
    recommendationsPage [] = none ∧
    (recs ≠ [] → ∃ lines, recommendationsPage recs = some lines ∧
      lines.length = recs.length) ∧
    (recs.get? i = some t → ∃ lines, recommendationsPage recs = some lines ∧
      lines.get? i = some (toString (i + 1) ++ ". " ++ t)) := by
  refine ⟨rfl, ?_, ?_⟩
  · intro h
    refine ⟨recs.enum.map fun p => toString (p.1 + 1) ++ ". " ++ p.2, ?_, ?_⟩
    · simp [recommendationsPage, h]
    · simp
  · intro h
    have hne : recs ≠ [] := by
      intro he; rw [he] at h; simp at h
    refine ⟨recs.enum.map fun p => toString (p.1 + 1) ++ ". " ++ p.2, ?_, ?_⟩
    · simp [recommendationsPage, hne]
    · rw [List.get?_eq_getElem?] at h
      simp [List.getElem?_map, List.getElem?_enum, h]

/-- Witness for C7 at the spec's own example. -/
theorem recommendations_numbered_witness :
    (["Add a glossary", "Merge doc A and B"] : List String).get? 0 = some "Add a glossary" ∧
    ∃ lines, recommendationsPage ["Add a glossary", "Merge doc A and B"] = some lines ∧
      lines.get? 0 = some (toString (0 + 1) ++ ". " ++ "Add a glossary") :=
  ⟨rfl, (recommendations_numbered ["Add a glossary", "Merge doc A and B"] 0 "Add a glossary").2.2 rfl⟩

/-! ### Sorting lemmas for the term-frequency table (C3) -/

/-- Inserting a row keeps the list a permutation of the cons. -/
theorem perm_orderedInsertFreq (a : String × Nat) (l : List (String × Nat)) :
    List.Perm (orderedInsertFreq a l) (a :: l) := by
  induction l with
  | nil => exact List.Perm.refl _
  | cons b t ih =>
    unfold orderedInsertFreq
    by_cases h : a.2 ≤ b.2
    · rw [if_pos h]
    · rw [if_neg h]
      exact (ih.cons b).trans (List.Perm.swap a b t)

/-- Inserting into an ascending-by-frequency list keeps it ascending. -/
theorem sorted_orderedInsertFreq (a : String × Nat) (l : List (String × Nat))
    (h : List.Sorted (fun x y => x.2 ≤ y.2) l) :
    List.Sorted (fun x y => x.2 ≤ y.2) (orderedInsertFreq a l) := by
  induction l with
  | nil => simp [orderedInsertFreq]
  | cons b t ih =>
    rw [List.sorted_cons] at h
    unfold orderedInsertFreq
    by_cases hab : a.2 ≤ b.2
    · rw [if_pos hab, List.sorted_cons]
      refine ⟨?_, List.sorted_cons.mpr h⟩
      intro x hx
      rcases List.mem_cons.mp hx with rfl | hx
      · exact hab
      · exact le_trans hab (h.1 x hx)
    · rw [if_neg hab, List.sorted_cons]
      refine ⟨?_, ih h.2⟩
      intro x hx
      rcases List.mem_cons.mp ((perm_orderedInsertFreq a t).mem_iff.mp hx) with rfl | hx
      · exact le_of_not_le hab
      · exact h.1 x hx

/-- The insertion sort produces an ascending-by-frequency list. -/
theorem sorted_insertionSortFreq (l : List (String × Nat)) :
    List.Sorted (fun x y => x.2 ≤ y.2) (insertionSortFreq l) := by
  induction l with
  | nil => simp [insertionSortFreq]
  | cons a t ih => exact sorted_orderedInsertFreq a _ ih

/-- The insertion sort permutes its input. -/
theorem perm_insertionSortFreq (l : List (String × Nat)) :
    List.Perm (insertionSortFreq l) l := by
  induction l with
  | nil => exact List.Perm.refl _
  | cons a t ih => exact (perm_orderedInsertFreq a _).trans (ih.cons a)

/-- Stability of one insertion step, phrased through filtering at one
frequency: the row goes in front of the previously inserted equal-frequency
rows, and rows at other frequencies are untouched. -/
theorem filter_orderedInsertFreq (a : String × Nat) (l : List (String × Nat)) (k : Nat) :
    (orderedInsertFreq a l).filter (fun x => x.2 == k) =
      if a.2 = k then a :: l.filter (fun x => x.2 == k)
      else l.filter (fun x => x.2 == k) := by
  induction l with
  | nil => by_cases h : a.2 = k <;> simp [orderedInsertFreq, h]
  | cons b t ih =>
    unfold orderedInsertFreq
    by_cases hab : a.2 ≤ b.2
    · rw [if_pos hab]
      by_cases h : a.2 = k <;> simp [List.filter_cons, h]
    · rw [if_neg hab]
      by_cases h : a.2 = k
      · have hbk : ¬ b.2 = k := fun hb => hab (le_of_eq (h.trans hb.symm))
        rw [if_pos h]
        simp [List.filter_cons, ih, if_pos h, hbk]
      · rw [if_neg h]
        simp [List.filter_cons, ih, if_neg h]

/-- Stability of the whole sort: at any one frequency the sorted list keeps
the rows in their original relative order. -/
theorem filter_insertionSortFreq (l : List (String × Nat)) (k : Nat) :
    (insertionSortFreq l).filter (fun x => x.2 == k) = l.filter (fun x => x.2 == k) := by
  induction l with
  | nil => rfl
  | cons a t ih =>
    unfold insertionSortFreq
    rw [filter_orderedInsertFreq]
    by_cases h : a.2 = k
    · rw [if_pos h, ih, List.filter_cons, if_pos (by simp [h])]
    · rw [if_neg h, ih, List.filter_cons, if_neg (by simp [h])]

/-- C3 (amended): the rendered term-frequency table is sorted descending by
frequency and lists exactly the terms of the input — but terms with EQUAL
frequency appear in the REVERSE of their original key order, because pandas
realises the descending sort by reversing an ascending sort of the rows. -/
theorem df_freq_sorted_desc (terms : List (String × TermDetails)) :
    List.Sorted (fun a b : String × Nat => b.2 ≤ a.2) (df_freq terms) ∧
    List.Perm (df_freq terms) (freq_data terms) ∧
    ∀ k : Nat, (df_freq terms).filter (fun x => x.2 == k) =
      ((freq_data terms).filter (fun x => x.2 == k)).reverse := by
  refine ⟨?_, ?_, ?_⟩
  · have h := sorted_insertionSortFreq (freq_data terms)
    exact List.pairwise_reverse.mpr h
  · exact (List.reverse_perm _).trans (perm_insertionSortFreq _)
  · intro k
    show ((insertionSortFreq (freq_data terms)).reverse.filter _) = _
    rw [List.filter_reverse, filter_insertionSortFreq]

/-- The spec's own term-frequency example: `{"api": 5, "sdk": 9, "cli": 9}`
in that key order. -/
def exTerms : List (String × TermDetails) :=
  [("api", { frequency := some 5 }), ("sdk", { frequency := some 9 }),
   ("cli", { frequency := some 9 })]

/-- C3 counterexample: on the spec's example the rendered order is
`cli, sdk, api` — "cli" strictly precedes "sdk" — refuting the claimed
stable tie-break that would put "sdk" before "cli". -/
theorem df_freq_ties_reversed :
    (df_freq exTerms).map Prod.fst = ["cli", "sdk", "api"] ∧
    List.indexOf "cli" ((df_freq exTerms).map Prod.fst) <
      List.indexOf "sdk" ((df_freq exTerms).map Prod.fst) := by
  decide

/-! ### Document Explorer compliance resolution (C2) -/

/-- The inner loop of dashboard.py lines 101-105 finds no reason exactly when
no `non_compliant` entry is a mapping whose `file` is the selected document. -/
theorem firstMatchReason_eq_none_iff (selected : String) (l : List NCItem) :
    firstMatchReason selected l = none ↔
      ∀ item ∈ l, ncFileMatches selected item = false := by
  induction l with
  | nil => simp [firstMatchReason]
  | cons a rest ih =>
    cases a with
    | dict f r =>
      by_cases h : f = some selected
      · simp [firstMatchReason, h, ncFileMatches]
      · simp [firstMatchReason, h, ncFileMatches, ih]
    | bare s => simp [firstMatchReason, ncFileMatches, ih]

/-- C2 (amended): per practice, the Document Explorer compliance-issues list
(1) excludes a practice when the document is in its `compliant` list and no
`non_compliant` mapping entry names it; (2) includes the practice with the
first matching entry's reason when one does; but (3) when the document is in
NEITHER list the practice is INCLUDED with the default reason "Not explicitly
listed as non-compliant" — that case is always surfaced, not excluded as the
claim states. The last conjunct ties `firstMatchReason` to "no mapping entry
names the document". -/
theorem compliance_issue_cases (selected p reason : String) (details : PracticeDetails)
    (rest : List (String × PracticeDetails)) :
    (firstMatchReason selected (details.non_compliant.getD []) = none →
      selected ∈ details.compliant.getD [] →
      compliance_issues selected ((p, details) :: rest) = compliance_issues selected rest) ∧
    (firstMatchReason selected (details.non_compliant.getD []) = some reason →
      compliance_issues selected ((p, details) :: rest) =
        (displayPractice p, reason) :: compliance_issues selected rest) ∧
    (firstMatchReason selected (details.non_compliant.getD []) = none →
      selected ∉ details.compliant.getD [] →
      compliance_issues selected ((p, details) :: rest) =
        (displayPractice p, defaultReason) :: compliance_issues selected rest) ∧
    (firstMatchReason selected (details.non_compliant.getD []) = none ↔
      ∀ item ∈ details.non_compliant.getD [], ncFileMatches selected item = false) := by
  refine ⟨?_, ?_, ?_, firstMatchReason_eq_none_iff selected _⟩
  · intro h hmem
    simp [compliance_issues, h, hmem]
  · intro h
    simp [compliance_issues, h]
  · intro h hmem
    simp [compliance_issues, h, hmem]

/-- Witness for C2: a document in `compliant` and matched by no
`non_compliant` mapping entry yields no issue row for that practice. -/
theorem compliance_issue_cases_witness :
    compliance_issues "a.md"
      [("heading_structure",
        { compliant := some ["a.md"],
          non_compliant := some [NCItem.dict (some "b.md") (some "bad headings")] })] = [] :=
  (compliance_issue_cases "a.md" "heading_structure" "unused"
      { compliant := some ["a.md"],
        non_compliant := some [NCItem.dict (some "b.md") (some "bad headings")] }
      []).1 (by decide) (by decide)

/-- C2 counterexample: for a practice whose `compliant` and `non_compliant`
lists are both empty — so the selected document appears in neither — the
claim says the compliance-issues list excludes the practice, but the code
includes it, with the default reason. -/
theorem compliance_absent_doc_included :
    compliance_issues "doc_a"
      [("heading_structure", { compliant := some [], non_compliant := some [] })] =
      [("Heading Structure", "Not explicitly listed as non-compliant")] ∧
    ¬ compliance_issues "doc_a"
      [("heading_structure", { compliant := some [], non_compliant := some [] })] = [] := by
  decide

/-! ### Compliance Dashboard shape tolerance (C8) -/

/-- C8: a bare-string `non_compliant` entry is coerced to a display row with
that string as the document and reason "N/A"; a practice's whole
`non_compliant` list (whatever the shapes of its entries) is rendered row by
row, and the page still renders one section per practice. -/
theorem compliance_shape_anomaly (s p : String) (details : PracticeDetails)
    (items : List NCItem) (r : Report) :
    non_compliant_row (NCItem.bare s) = (some s, some "N/A") ∧
    (details.non_compliant = some items → items ≠ [] →
      (practiceSection p details).non_compliant_rows =
        some (items.length, items.map non_compliant_row)) ∧
    (r.compliance ≠ [] →
      complianceDashboard r = some (r.compliance.map fun q => practiceSection q.1 q.2)) := by
  refine ⟨rfl, ?_, ?_⟩
  · intro h hne
    simp [practiceSection, h, hne]
  · intro h
    simp [complianceDashboard, h]

/-- Witness for C8: a mixed `non_compliant` list — one mapping entry, one
bare string — renders both rows, the bare one with reason "N/A". -/
theorem compliance_shape_anomaly_witness :
    (practiceSection "alt_text"
        { compliant := some ["a.md"],
          non_compliant := some [NCItem.dict (some "b.md") (some "missing alt text"),
                                 NCItem.bare "c.md"] }).non_compliant_rows =
      some (2, [(some "b.md", some "missing alt text"), (some "c.md", some "N/A")]) :=
  ((compliance_shape_anomaly "c.md" "alt_text"
      { compliant := some ["a.md"],
        non_compliant := some [NCItem.dict (some "b.md") (some "missing alt text"),
                               NCItem.bare "c.md"] }
      [NCItem.dict (some "b.md") (some "missing alt text"), NCItem.bare "c.md"]
      (extractReport minimalRaw)).2.1 rfl (by decide))

/-! ### Document Explorer selection guard (C9) -/

/-- C9: with no documents the Document Explorer renders no details block
(only the selection prompt) for every selectbox state; with at least one
document the selectbox always yields a selection, the first key by
default. -/
theorem doc_explorer_empty_and_default (r : Report) (c : Nat) (d : String × DocRecord)
    (rest : List (String × DocRecord)) :
    documentExplorer { r with doc_structure := [] } c = none ∧
    doc_names { r with doc_structure := [] } = [] ∧
    selectbox (doc_names { r with doc_structure := d :: rest }) 0 = some d.1 ∧
    (selectbox (doc_names { r with doc_structure := d :: rest }) c).isSome = true := by
  refine ⟨?_, rfl, rfl, ?_⟩
  · simp [documentExplorer, doc_names, selectbox]
  · unfold selectbox
    cases h : (doc_names { r with doc_structure := d :: rest }).get? c with
    | some v => rfl
    | none => rfl

/-! ### Document Explorer field defaults (C10) -/

/-- C10: with the headings mapping absent, or present but missing the `H1`
(resp. `H2`) key, the rendered heading counts are 0; each absent feature
flag renders as `false`. -/
theorem doc_details_defaults (r : Report) (d : String) (doc : DocRecord)
    (hs : List (String × Nat)) :
    (renderDocDetails r d { doc with headings := none }).h1 = 0 ∧
    (renderDocDetails r d { doc with headings := none }).h2 = 0 ∧
    (hs.lookup "H1" = none →
      (renderDocDetails r d { doc with headings := some hs }).h1 = 0) ∧
    (hs.lookup "H2" = none →
      (renderDocDetails r d { doc with headings := some hs }).h2 = 0) ∧
    (renderDocDetails r d { doc with lists := none }).lists_present = false ∧
    (renderDocDetails r d { doc with tables := none }).tables_present = false ∧
    (renderDocDetails r d { doc with faqs := none }).faqs_present = false ∧
    (renderDocDetails r d { doc with metadata := none }).metadata_present = false := by
  refine ⟨rfl, rfl, ?_, ?_, rfl, rfl, rfl, rfl⟩ <;>
    · intro h
      simp [renderDocDetails, h]

/-- Witness for C10: a headings mapping carrying only an `H3` count renders
both H1 and H2 as 0. -/
theorem doc_details_defaults_witness :
    ([("H3", 2)] : List (String × Nat)).lookup "H1" = none ∧
    (renderDocDetails (extractReport minimalRaw) "guide.md"
      { headings := some [("H3", 2)] }).h1 = 0 :=
  ⟨by decide,
   (doc_details_defaults (extractReport minimalRaw) "guide.md" {} [("H3", 2)]).2.2.1 (by decide)⟩

end Dashboard
